import Mathlib

/-!
Shallow embedding of the gmaisse.dev repository: the site configuration
object (src/app.config.ts), the build configuration (src/nuxt.config.ts),
and the frontmatter of the two markdown posts under src/content.
The framework-side resolution rules (effective author, date parsing) are
not part of this repository; they are modelled from the spec where a claim
needs them, and each such definition says so in its doc comment.
-/

/-- An author record, mirroring the entries of `authors` in src/app.config.ts.
The social-links mapping is embedded as an ordered association list of
(key, value) pairs, in the order the object literal writes them. -/
structure Author where
  username : String
  default : Bool
  name : String
  description : String
  avatar : String
  socials : List (String × String)
deriving Repr, DecidableEq

/-- A navigation menu entry, mirroring the objects returned by `menu`. -/
structure MenuEntry where
  name : String
  path : String
deriving Repr, DecidableEq

/-- The newsletter-integration record of src/app.config.ts. -/
structure Newsletter where
  enabled : Bool
  form_action : String
  provider : String
deriving Repr, DecidableEq

/-- The comments-integration record of src/app.config.ts. -/
structure Comments where
  enabled : Bool
deriving Repr, DecidableEq

/-- A robots-directives record of src/app.config.ts. -/
structure RobotsRule where
  UserAgent : String
  Allow : List String
deriving Repr, DecidableEq

/-- The `socials` object of src/app.config.ts: its platform-to-URL keys,
embedded as an ordered association list, together with its
`sharing_networks` list. -/
structure Socials where
  entries : List (String × String)
  sharing_networks : List String
deriving Repr, DecidableEq

/-- The site configuration object exported by src/app.config.ts.
The `menu` key holds a function producing the menu entries, as in the
source. -/
structure SiteConfig where
  logo : String
  url : String
  theme : String
  name : String
  description : String
  socials : Socials
  newsletter : Newsletter
  comments : Comments
  table_of_contents : Bool
  authors : List Author
  menu : Unit → List MenuEntry
  robots : List RobotsRule

/-- The single author declared in src/app.config.ts (lines 52-67). -/
def gmaisseAuthor : Author :=
  { username := "gmaisse"
  , default := true
  , name := "Gaetan Maisse"
  , description := ""
  , avatar := "/images/portrait.jpg"
  , socials :=
      [ ("twitter", "https://twitter.com/gaetanmaisse")
      , ("twitter_username", "gaetanmaisse")
      , ("linkedin", "https://www.linkedin.com/in/gaetanmaisse/")
      , ("github", "https://github.com/gaetanmaisse")
      ]
  }

/-- The configuration object of src/app.config.ts, transcribed field by
field. -/
def appConfig : SiteConfig :=
  { logo := "/images/logo.svg"
  , url := "https://gaetanmaisse.github.io/gmaisse.dev/"
  , theme := "mistral"
  , name := "gmaisse.dev"
  , description := "lorem ipsum dolor sit amet, consectetur adipiscing elit. Ut elit tellus, luctus nec ullamcorper mattis, pulvinar dapibus leo."
  , socials :=
      { entries :=
          [ ("twitter", "https://twitter.com")
          , ("youtube", "https://youtube.com")
          , ("linkedin", "https://linkedin.com")
          , ("facebook", "https://facebook.com")
          , ("instagram", "https://instagram.com")
          , ("github", "https://github.com")
          ]
      , sharing_networks :=
          [ "facebook", "twitter", "linkedin", "email", "pinterest"
          , "reddit", "pocket", "whatsapp", "telegram", "skype" ]
      }
  , newsletter :=
      { enabled := true
      , form_action := "rssfeedpulse"
      , provider := "https://rssfeedpulse.com/api/campaign/996539cf-73e4-47b5-8d7c-2d7450174467/subscribe"
      }
  , comments := { enabled := false }
  , table_of_contents := false
  , authors := [gmaisseAuthor]
  , menu := fun _ =>
      [ { name := "Home", path := "/" }
      , { name := "Documentation", path := "/about" }
      , { name := "Archives", path := "/archives" }
      ]
  , robots := [ { UserAgent := "*", Allow := ["/"] } ]
  }

/-- The fixed enum of supported sharing networks, from the comment block of
src/app.config.ts lines 29-30 (the nuxt-social-share module values). -/
def supportedNetworks : List String :=
  [ "facebook", "twitter", "linkedin", "email", "pinterest"
  , "reddit", "pocket", "whatsapp", "telegram", "skype" ]

/-- The `app` options block of src/nuxt.config.ts. -/
structure AppOptions where
  baseURL : String
deriving Repr, DecidableEq

/-- The build configuration exported by src/nuxt.config.ts: exactly three
settings. `extendsModules` embeds the key spelled `extends` in the source
(a Lean keyword, hence the rename). -/
structure NuxtConfig where
  extendsModules : List String
  app : AppOptions
  compatibilityDate : String
deriving Repr, DecidableEq

/-- The configuration object of src/nuxt.config.ts, transcribed field by
field. -/
def nuxtConfig : NuxtConfig :=
  { extendsModules := ["@bloggrify/core", "@bloggrify/mistral"]
  , app := { baseURL := "/gmaisse.dev/" }
  , compatibilityDate := "2024-07-03"
  }

/-- The frontmatter block of a post. The `author` key is the optional
explicit-author reference the framework recognizes; neither post in the
repository carries it, so it is `none` for both. -/
structure Frontmatter where
  title : String
  description : String
  date : String
  categories : List String
  tags : List String
  cover : String
  author : Option String
deriving Repr, DecidableEq

/-- A post file: its frontmatter block, and whether a non-empty markdown
body follows the block (the body text itself is not inspected by any
property here, so only its presence is embedded). -/
structure Post where
  frontmatter : Frontmatter
  hasBody : Bool
deriving Repr, DecidableEq

/-- The post src/content/20240621/exhaustive-type-checking.md. -/
def post20240220 : Post :=
  { frontmatter :=
      { title := "Exhaustive Type Checking with Zod"
      , description := "Embrace Exhaustive Type Checking with Zod\x27s Discriminated Unions"
      , date := "2024-02-20"
      , categories := ["blog"]
      , tags := ["TypeScript", "Zod"]
      , cover := "covers/exhaustive-type-checking.jpg"
      , author := none
      }
  , hasBody := true
  }

/-- The post src/unnamed/part_000 (dated 2024-07-03). -/
def post20240703 : Post :=
  { frontmatter :=
      { title := "Parsing Node.js Command-Line Arguments the Easy Way"
      , description := "Learn how to parse command-line arguments in Node.js using built-in parseArgs function"
      , date := "2024-07-03"
      , categories := ["blog"]
      , tags := ["TypeScript", "Node.js"]
      , cover := "covers/node-parse-args.jpg"
      , author := none
      }
  , hasBody := true
  }

/-- The two posts of the repository. -/
def posts : List Post := [post20240220, post20240703]

/-- Modelled from the spec: what counts as a URL in the social-links
mappings (the repository itself contains no URL-checking code; a URL here
is a string carrying an http or https scheme). -/
def isURL (s : String) : Bool :=
  "https://".toList.isPrefixOf s.toList || "http://".toList.isPrefixOf s.toList

/-- Modelled from the spec: the known enum of social platforms to which the
social-links keys are fixed. The spec does not enumerate it; it is taken as
the set of keys the theme recognizes, which includes the platforms used at
site level together with the author-level twitter_username key. -/
def knownPlatforms : List String :=
  [ "twitter", "youtube", "linkedin", "facebook", "instagram", "github"
  , "twitter_username" ]

/-- A path is root-relative when it begins with a slash. -/
def isRootRelative (s : String) : Bool :=
  "/".toList.isPrefixOf s.toList

/-- Modelled from the spec: the framework resolution of the effective
author of a post (missing from src/; only the configuration it reads is in
the repository). An explicit reference names the author to use; otherwise
the default-flagged author is used; otherwise resolution is an error. -/
def resolveAuthor (authors : List Author) (explicit : Option String) :
    Except String Author :=
  match explicit with
  | some u =>
    match authors.find? (fun a => a.username == u) with
    | some a => Except.ok a
    | none => Except.error ("unknown author: " ++ u)
  | none =>
    match authors.find? (fun a => a.default) with
    | some a => Except.ok a
    | none => Except.error "no default author"

/-- A calendar date as year, month and day. -/
structure Date where
  year : Nat
  month : Nat
  day : Nat
deriving Repr, DecidableEq

/-- Gregorian leap-year rule. -/
def isLeapYear (y : Nat) : Bool :=
  (y % 4 == 0 && y % 100 != 0) || y % 400 == 0

/-- Number of days of a month in a given year. -/
def daysInMonth (y m : Nat) : Nat :=
  if m == 2 then (if isLeapYear y then 29 else 28)
  else if m == 4 || m == 6 || m == 9 || m == 11 then 30
  else 31

/-- Validity of a calendar date. -/
def validDate (y m d : Nat) : Bool :=
  1 ≤ m && m ≤ 12 && 1 ≤ d && d ≤ daysInMonth y m

/-- All characters of a group are decimal digits. -/
def allDigits (l : List Char) : Bool :=
  l.all Char.isDigit

/-- Value of a group of decimal digits. -/
def digitsToNat (l : List Char) : Nat :=
  l.foldl (fun acc c => acc * 10 + (c.toNat - 48)) 0

/-- Groups of characters separated by a given character. -/
def splitChar (c : Char) : List Char → List (List Char)
  | [] => [[]]
  | x :: xs =>
    if x == c then [] :: splitChar c xs
    else
      match splitChar c xs with
      | [] => [[x]]
      | g :: gs => (x :: g) :: gs

/-- Modelled from the spec: the framework parse of a frontmatter date
(missing from src/). An ISO-8601 calendar date YYYY-MM-DD is accepted when
it is a valid calendar date; anything else fails, so a malformed date can
never reach chronological sorting. -/
def parseDate (s : String) : Option Date :=
  match splitChar (Char.ofNat 45) s.toList with
  | [ys, ms, ds] =>
    if ys.length == 4 && ms.length == 2 && ds.length == 2
        && allDigits ys && allDigits ms && allDigits ds then
      let y := digitsToNat ys
      let m := digitsToNat ms
      let d := digitsToNat ds
      if validDate y m d then some ⟨y, m, d⟩ else none
    else none
  | _ => none

/-- A parsed date is always a valid calendar date: the parser guards every
success with the validity check. -/
theorem parseDate_valid (s : String) (dt : Date)
    (h : parseDate s = some dt) : validDate dt.year dt.month dt.day = true := by
  unfold parseDate at h
  split at h
  · split at h
    · dsimp only at h
      split at h
      · cases h
        simpa using ‹validDate _ _ _ = true›
      · exact absurd h (by simp)
    · exact absurd h (by simp)
  · exact absurd h (by simp)

/-- C1: in the SiteConfig authors list at most one author is default, the
list being non-empty carries exactly one default author, and the declared
configuration holds exactly the one author gmaisse with the default flag
set. -/
theorem authors_default_invariant :
    appConfig.authors = [gmaisseAuthor]
    ∧ gmaisseAuthor.username = "gmaisse"
    ∧ gmaisseAuthor.default = true
    ∧ (appConfig.authors.filter (fun a => a.default)).length = 1
    ∧ (appConfig.authors.filter (fun a => a.default)).length ≤ 1
    ∧ appConfig.authors.isEmpty = false := by
  refine ⟨rfl, rfl, rfl, rfl, by decide, rfl⟩

/-- C2: effective-author resolution returns the explicitly referenced
author when the post names one, otherwise the default-flagged author, and
otherwise an error; in the declared configuration the post dated
2024-07-03, whose frontmatter has no author key, resolves to the default
author gmaisse. -/
theorem resolveAuthor_correct :
    (∀ (as : List Author) (u : String) (a : Author),
        as.find? (fun x => x.username == u) = some a →
        resolveAuthor as (some u) = Except.ok a)
    ∧ (∀ (as : List Author) (a : Author),
        as.find? (fun x => x.default) = some a →
        resolveAuthor as none = Except.ok a)
    ∧ (∀ as : List Author,
        as.find? (fun x => x.default) = none →
        resolveAuthor as none = Except.error "no default author")
    ∧ resolveAuthor appConfig.authors post20240703.frontmatter.author
        = Except.ok gmaisseAuthor
    ∧ gmaisseAuthor.username = "gmaisse"
    ∧ gmaisseAuthor.default = true := by
  refine ⟨?_, ?_, ?_, rfl, rfl, rfl⟩
  · intro as u a h
    simp [resolveAuthor, h]
  · intro as a h
    simp [resolveAuthor, h]
  · intro as h
    simp [resolveAuthor, h]

/-- Witness for C2: the resolution rules applied to the declared author
list and to an empty author list. -/
theorem resolveAuthor_correct_witness :
    resolveAuthor [gmaisseAuthor] (some "gmaisse") = Except.ok gmaisseAuthor
    ∧ resolveAuthor [gmaisseAuthor] none = Except.ok gmaisseAuthor
    ∧ resolveAuthor [] none = Except.error "no default author" :=
  ⟨resolveAuthor_correct.1 [gmaisseAuthor] "gmaisse" gmaisseAuthor rfl
  , resolveAuthor_correct.2.1 [gmaisseAuthor] gmaisseAuthor rfl
  , resolveAuthor_correct.2.2.1 [] rfl⟩

/-- Counterexample to C3 as stated: not every value of the author
social-links mapping is a URL; the twitter_username entry holds the bare
username gaetanmaisse. -/
theorem author_socials_url_counterexample :
    (gmaisseAuthor.socials.all (fun kv => isURL kv.2)) = false := by decide

/-- C3 amended: every key of the site-level socials mapping and of the
author social-links mapping is drawn from the known platform enum; every
site-level value is a URL, and every author-level value except the
twitter_username entry is a URL — that entry holds the bare username
gaetanmaisse, which is not a URL. -/
theorem socials_platforms_and_urls :
    appConfig.socials.entries.all
        (fun kv => knownPlatforms.contains kv.1 && isURL kv.2) = true
    ∧ gmaisseAuthor.socials.all
        (fun kv => knownPlatforms.contains kv.1) = true
    ∧ gmaisseAuthor.socials.all
        (fun kv => kv.1 == "twitter_username" || isURL kv.2) = true
    ∧ gmaisseAuthor.socials.contains ("twitter_username", "gaetanmaisse") = true
    ∧ isURL "gaetanmaisse" = false := by
  refine ⟨by decide, by decide, by decide, by decide, by decide⟩

/-- C4: every entry of the declared sharing_networks list belongs to the
fixed supported-network enum. -/
theorem sharing_networks_supported :
    appConfig.socials.sharing_networks.all
      (fun n => supportedNetworks.contains n) = true := by decide

/-- C5: the newsletter record holds the enabled flag, the form action and
the provider; in the declared configuration enabled is true and both
form_action and provider are non-empty. -/
theorem newsletter_config :
    appConfig.newsletter =
      { enabled := true
      , form_action := "rssfeedpulse"
      , provider := "https://rssfeedpulse.com/api/campaign/996539cf-73e4-47b5-8d7c-2d7450174467/subscribe" }
    ∧ appConfig.newsletter.enabled = true
    ∧ appConfig.newsletter.form_action.toList.isEmpty = false
    ∧ appConfig.newsletter.provider.toList.isEmpty = false := by
  refine ⟨rfl, rfl, by decide, by decide⟩

/-- C6: both posts carry a metadata block with non-empty title and
description, an ISO-8601 calendar date, non-empty categories and tags
sequences and a relative cover path, followed by a markdown body. -/
theorem posts_frontmatter_shape :
    posts.all (fun p =>
      !p.frontmatter.title.toList.isEmpty
      && !p.frontmatter.description.toList.isEmpty
      && (parseDate p.frontmatter.date).isSome
      && !p.frontmatter.categories.isEmpty
      && !p.frontmatter.tags.isEmpty
      && !(isRootRelative p.frontmatter.cover)
      && p.hasBody) = true := by decide

/-- C7: the two posts carry the dates 2024-02-20 and 2024-07-03, both of
which parse as valid calendar dates, and the date parse only ever yields a
valid calendar date, so a malformed date fails instead of sorting
silently. -/
theorem post_dates_valid :
    parseDate post20240220.frontmatter.date = some ⟨2024, 2, 20⟩
    ∧ parseDate post20240703.frontmatter.date = some ⟨2024, 7, 3⟩
    ∧ parseDate "2024-13-01" = none
    ∧ ∀ (s : String) (dt : Date), parseDate s = some dt →
        validDate dt.year dt.month dt.day = true := by
  refine ⟨by decide, by decide, by decide, ?_⟩
  intro s dt h
  exact parseDate_valid s dt h

/-- Witness for C7: the general validity statement applied to a concrete
parsed date. -/
theorem post_dates_valid_witness :
    validDate 2024 7 3 = true :=
  post_dates_valid.2.2.2 "2024-07-03" ⟨2024, 7, 3⟩ (by decide)

/-- C8: the menu function produces exactly the declared ordered entries
Home, Documentation, Archives with their paths, in that order. -/
theorem menu_order :
    appConfig.menu () =
      [ { name := "Home", path := "/" }
      , { name := "Documentation", path := "/about" }
      , { name := "Archives", path := "/archives" } ] := rfl

/-- C9: the build configuration declares exactly the module extension list
with @bloggrify/core first, the base deployment path /gmaisse.dev/, and
the compatibility date 2024-07-03. -/
theorem nuxt_config_settings :
    nuxtConfig =
      { extendsModules := ["@bloggrify/core", "@bloggrify/mistral"]
      , app := { baseURL := "/gmaisse.dev/" }
      , compatibilityDate := "2024-07-03" }
    ∧ nuxtConfig.extendsModules.head? = some "@bloggrify/core" := ⟨rfl, rfl⟩

/-- C10: the logo path, the author avatar path, every menu entry path and
every robots Allow entry begin with a slash, while every post cover path
is relative with no leading slash. -/
theorem internal_paths_root_relative :
    isRootRelative appConfig.logo = true
    ∧ isRootRelative gmaisseAuthor.avatar = true
    ∧ ((appConfig.menu ()).all (fun e => isRootRelative e.path)) = true
    ∧ (appConfig.robots.all (fun r => r.Allow.all isRootRelative)) = true
    ∧ (posts.all (fun p => !(isRootRelative p.frontmatter.cover))) = true := by
  refine ⟨by decide, by decide, by decide, by decide, by decide⟩
